import Mathlib

/-!
Shallow embedding of `src/kinect_ndi_cross_platform.cpp` (a Kinect-to-NDI
bridge).  Byte values (`uint8_t`) and 16-bit depth samples (`uint16_t`) are
modelled as `Nat`, with an explicit `% 256` where the C++ code narrows to
`uint8_t`.  Buffers (`std::vector`) are modelled as `List Nat`; out-of-range
indexing is modelled with `List.getD` (the C++ code only indexes in bounds,
since every buffer has the fixed frame size).
-/

namespace KinectNDI

/-- `constexpr int WIDTH = 640;` (line 19). -/
def WIDTH : Nat := 640

/-- `constexpr int HEIGHT = 480;` (line 20). -/
def HEIGHT : Nat := 480

/-- The pixel-conversion loops (`for (int i = 0; i < WIDTH * HEIGHT; i++)`,
lines 243, 252 and 285) each write four consecutive bytes of `rgbaFrame` at
offsets `i*4 + 0 .. i*4 + 3`.  `buildFrame pix n` is the buffer those loops
have produced after iterations `0, …, n-1`, where `pix i` is the list of the
four bytes iteration `i` writes. -/
def buildFrame (pix : Nat → List Nat) : Nat → List Nat
  | 0 => []
  | n + 1 => buildFrame pix n ++ pix n

/-- Body of the IR loop (lines 243-249): `gray = localVideoBuffer[i]` is
written to the blue, green and red slots, and `255` to the fourth slot. -/
def irPixel (buf : List Nat) (i : Nat) : List Nat :=
  let gray := buf.getD i 0
  [gray, gray, gray, 255]

/-- The IR branch of the video conversion (lines 241-249). -/
def convertIR (buf : List Nat) : List Nat :=
  buildFrame (irPixel buf) (WIDTH * HEIGHT)

/-- Body of the RGB loop (lines 252-260): reads `r`, `g`, `b` at offsets
`i*3 + 0`, `i*3 + 1`, `i*3 + 2` and writes `b, g, r, 255`. -/
def rgbPixel (buf : List Nat) (i : Nat) : List Nat :=
  let r := buf.getD (i * 3) 0
  let g := buf.getD (i * 3 + 1) 0
  let b := buf.getD (i * 3 + 2) 0
  [b, g, r, 255]

/-- The RGB branch of the video conversion (lines 250-260). -/
def convertRGB (buf : List Nat) : List Nat :=
  buildFrame (rgbPixel buf) (WIDTH * HEIGHT)

/-- `static_cast<uint8_t>((depthVal * 255) / 2047)` (line 287): `depthVal`
is promoted to `int` (no overflow for 16-bit samples), multiplied and
divided, then narrowed to `uint8_t`, which is reduction mod 256. -/
def depthGray (d : Nat) : Nat :=
  d * 255 / 2047 % 256

/-- Body of the depth loop (lines 285-292): the converted gray value is
written to the blue, green and red slots, and `255` to the fourth slot. -/
def depthPixel (buf : List Nat) (i : Nat) : List Nat :=
  let gray := depthGray (buf.getD i 0)
  [gray, gray, gray, 255]

/-- The depth conversion (lines 284-292). -/
def convertDepth (buf : List Nat) : List Nat :=
  buildFrame (depthPixel buf) (WIDTH * HEIGHT)

lemma irPixel_length (buf : List Nat) (i : Nat) : (irPixel buf i).length = 4 := rfl

lemma rgbPixel_length (buf : List Nat) (i : Nat) : (rgbPixel buf i).length = 4 := rfl

lemma depthPixel_length (buf : List Nat) (i : Nat) : (depthPixel buf i).length = 4 := rfl

lemma buildFrame_length (pix : Nat → List Nat) (h : ∀ j, (pix j).length = 4) :
    ∀ n, (buildFrame pix n).length = 4 * n := by
  intro n
  induction n with
  | zero => rfl
  | succ n ih => simp [buildFrame, ih, h, Nat.mul_succ]

lemma buildFrame_getD (pix : Nat → List Nat) (h : ∀ j, (pix j).length = 4) :
    ∀ n i c, i < n → c < 4 →
      (buildFrame pix n).getD (4 * i + c) 0 = (pix i).getD c 0 := by
  intro n
  induction n with
  | zero => intro i c hi _; exact absurd hi (Nat.not_lt_zero i)
  | succ n ih =>
    intro i c hi hc
    rcases Nat.lt_succ_iff_lt_or_eq.mp hi with h1 | h1
    · have hlt : 4 * i + c < (buildFrame pix n).length := by
        rw [buildFrame_length pix h n]; omega
      rw [buildFrame, List.getD_append _ _ _ _ hlt]
      exact ih i c h1 hc
    · subst h1
      have hge : (buildFrame pix i).length ≤ 4 * i + c := by
        rw [buildFrame_length pix h i]; omega
      rw [buildFrame, List.getD_append_right _ _ _ _ hge,
        buildFrame_length pix h i, Nat.add_sub_cancel_left]

/-! ### Frame Buffer Exchange

One slot per frame kind: a buffer (`videoBuffer` / `depthBuffer`) and a
new-frame flag (`newVideoFrame` / `newDepthFrame`), guarded by a mutex.
Because every access holds the slot's lock, put and take serialize, and the
exchange is modelled as sequential state passing. -/

/-- One slot of the exchange: the backing buffer and the "has new frame"
flag (lines 30-38 of the source). -/
structure FrameSlot (α : Type) where
  data : List α
  newFrame : Bool

/-- `VideoCallback` / `DepthCallback` (lines 41-60): under the lock, resize
the backing buffer to the frame size if needed, copy the whole frame into
it, and set the flag.  Resize-then-`memcpy` of the full frame replaces the
slot's contents with the incoming frame. -/
def putFrame {α : Type} (s : FrameSlot α) (frame : List α) : FrameSlot α :=
  { data := frame, newFrame := true }

/-- The publish loop's drain (lines 232/236-240 and 276/279-283): if the
flag is set, copy the buffer out, clear the flag, and return the copy;
otherwise return nothing. -/
def takeIfNew {α : Type} (s : FrameSlot α) : Option (List α) × FrameSlot α :=
  if s.newFrame then (some s.data, { s with newFrame := false })
  else (none, s)

/-! ### Command-line parsing and startup (lines 75-146) -/

/-- Outcome of argument parsing: either `return code;` from `main` during
parsing/validation, or fall through with the three enable flags set. -/
inductive ParseOutcome where
  | exitWith (code : Nat) : ParseOutcome
  | config (ir rgb depth : Bool) : ParseOutcome
  deriving DecidableEq

/-- The argument scan loop (lines 82-98) followed by the validation checks
(lines 99-106).  Arguments are `argv[1..]`; the three accumulators are the
global `enable_ir`, `enable_rgb`, `enable_depth` flags. -/
def scanArgs : List String → Bool → Bool → Bool → ParseOutcome
  | [], ir, rgb, depth =>
      if ir && rgb then .exitWith 1
      else if !ir && !rgb && !depth then .exitWith 1
      else .config ir rgb depth
  | a :: rest, ir, rgb, depth =>
      if a = "--help" || a = "-h" then .exitWith 0
      else if a = "--ir" then scanArgs rest true rgb depth
      else if a = "--rgb" then scanArgs rest ir true depth
      else if a = "--depth" then scanArgs rest ir rgb true
      else .exitWith 1

/-- Lines 78-106: `argc < 2` (no arguments) prints usage and returns 0;
otherwise the scan loop and validation run. -/
def cliParse (args : List String) : ParseOutcome :=
  if args.isEmpty then .exitWith 0
  else scanArgs args false false false

/-- `a` is one of the flags the scan loop recognizes. -/
def recognizedArg (a : String) : Bool :=
  a = "--help" || a = "-h" || a = "--ir" || a = "--rgb" || a = "--depth"

/-- `a` is a help flag. -/
def helpArg (a : String) : Bool :=
  a = "--help" || a = "-h"

/-- `a` is one of the three mode flags. -/
def modeArg (a : String) : Bool :=
  a = "--ir" || a = "--rgb" || a = "--depth"

/-- The active stream selection (the global `enable_*` flags after a
successful parse). -/
structure StreamConfig where
  ir : Bool
  rgb : Bool
  depth : Bool
  deriving DecidableEq

/-- `enable_ir || enable_rgb`: a video mode is active. -/
def videoEnabled (cfg : StreamConfig) : Bool :=
  cfg.ir || cfg.rgb

/-- Outcome of startup (everything in `main` before the reconnect loop):
either `return code;`, or reach the loop with a configuration and the
`videoChannels` value set at lines 107-112. -/
inductive StartupOutcome where
  | exitCode (code : Nat) : StartupOutcome
  | proceed (cfg : StreamConfig) (videoChannels : Nat) : StartupOutcome
  deriving DecidableEq

/-- Lines 75-146: parse and validate arguments, set `videoChannels`,
initialize NDI (failure → `return 1`), create the video sender if a video
mode is active (failure → `return 1`), create the depth sender if depth is
active (failure → `return 1`), then enter the reconnect loop.  The three
`Bool` parameters inject the success/failure of the NDI library calls. -/
def startupResult (args : List String)
    (ndiOk senderVideoOk senderDepthOk : Bool) : StartupOutcome :=
  match cliParse args with
  | .exitWith c => .exitCode c
  | .config ir rgb depth =>
      let videoChannels := if ir then 1 else if rgb then 3 else 0
      if !ndiOk then .exitCode 1
      else if (ir || rgb) && !senderVideoOk then .exitCode 1
      else if depth && !senderDepthOk then .exitCode 1
      else .proceed ⟨ir, rgb, depth⟩ videoChannels

/-! ### Connection supervisor (lines 151-317) -/

/-- Success/failure injections for one iteration of the outer reconnect
loop: the freenect calls that can fail, and whether
`freenect_process_events` eventually returns a negative value during
streaming (if it never does, the inner loop runs forever). -/
structure AttemptEnv where
  ctxOk : Bool
  openOk : Bool
  videoModeOk : Bool
  videoStartOk : Bool
  depthModeOk : Bool
  depthStartOk : Bool
  eventsFail : Bool
  deriving DecidableEq

/-- Outcome of the stream-configuration phase of one attempt (lines
169-217).  On failure it records whether `freenect_start_video` had been
executed for this attempt (`videoStarted`), and which teardown calls the
failure path performed (`stoppedVideo`, `closedDevice`, `shutdownCtx`). -/
inductive ConfigResult where
  | ok : ConfigResult
  | fail (videoStarted stoppedVideo closedDevice shutdownCtx : Bool) : ConfigResult
  deriving DecidableEq

/-- The depth-stream setup (lines 194-217), entered with `videoStarted`
recording whether this attempt already started the video stream.  Both
failure paths call `freenect_stop_video` iff `enable_ir || enable_rgb`
(lines 200-201, 210-211), then close the device and shut down the
context. -/
def configureDepth (cfg : StreamConfig) (e : AttemptEnv)
    (videoStarted : Bool) : ConfigResult :=
  if cfg.depth then
    if !e.depthModeOk then .fail videoStarted (videoEnabled cfg) true true
    else if !e.depthStartOk then .fail videoStarted (videoEnabled cfg) true true
    else .ok
  else .ok

/-- The stream-configuration phase (lines 169-217): video mode set and
video start when a video mode is active (failure paths at lines 178-184
and 186-192 close the device and shut the context, without stopping
video), then depth setup. -/
def configure (cfg : StreamConfig) (e : AttemptEnv) : ConfigResult :=
  if videoEnabled cfg then
    if !e.videoModeOk then .fail false false true true
    else if !e.videoStartOk then .fail false false true true
    else configureDepth cfg e true
  else configureDepth cfg e false

/-- Outcome of one iteration of the outer reconnect loop: the process
exits with a code, or the iteration ends back at the top after a delay (in
seconds), or the inner streaming loop never ends. -/
inductive StepOutcome where
  | exits (code : Nat) : StepOutcome
  | disconnectedRetry (delaySec : Nat) : StepOutcome
  | streamingForever : StepOutcome
  deriving DecidableEq

/-- One iteration of the outer loop (lines 151-317): `freenect_init`
(failure → sleep 5 s, `continue`, line 156-160), `freenect_open_device`
(failure → shutdown, sleep 5 s, `continue`, lines 162-167), stream
configuration (every failure sleeps 5 s and continues), then the inner
event loop; a negative `freenect_process_events` result leaves the inner
loop, tears the streams down and sleeps 5 s before the next attempt (lines
223-317). -/
def connectAttempt (cfg : StreamConfig) (e : AttemptEnv) : StepOutcome :=
  if !e.ctxOk then .disconnectedRetry 5
  else if !e.openOk then .disconnectedRetry 5
  else
    match configure cfg e with
    | .fail _ _ _ _ => .disconnectedRetry 5
    | .ok => if e.eventsFail then .disconnectedRetry 5 else .streamingForever

/-- Running the outer loop for up to `n` attempts under the environment
stream `envs`: `some c` if the process exited with code `c` within those
attempts, `none` if it is still running (either retrying or streaming). -/
def superviseExits (cfg : StreamConfig) (envs : Nat → AttemptEnv) :
    Nat → Option Nat
  | 0 => none
  | n + 1 =>
      match connectAttempt cfg (envs 0) with
      | .exits c => some c
      | .streamingForever => none
      | .disconnectedRetry _ => superviseExits cfg (fun k => envs (k + 1)) n

/-! ### Conversion theorems -/

lemma depthGray_le_2047 (d : Nat) (hd : d ≤ 2047) :
    depthGray d = d * 255 / 2047 := by
  have h1 : d * 255 ≤ 2047 * 255 := Nat.mul_le_mul_right 255 hd
  have h2 : d * 255 / 2047 ≤ 2047 * 255 / 2047 := Nat.div_le_div_right h1
  have h3 : (2047 * 255 : Nat) / 2047 = 255 := by norm_num
  have h4 : d * 255 / 2047 < 256 := by omega
  exact Nat.mod_eq_of_lt h4

/-- C4: for every infrared input sample `v` at pixel index `i`, the
converted image's first three channels (blue, green, red slots) all equal
`v` and the fourth channel equals 255. -/
theorem ir_conversion_replicates_sample (buf : List Nat) (i : Nat)
    (hi : i < WIDTH * HEIGHT) :
    (convertIR buf).getD (4 * i) 0 = buf.getD i 0
    ∧ (convertIR buf).getD (4 * i + 1) 0 = buf.getD i 0
    ∧ (convertIR buf).getD (4 * i + 2) 0 = buf.getD i 0
    ∧ (convertIR buf).getD (4 * i + 3) 0 = 255 := by
  have h0 := buildFrame_getD (irPixel buf) (irPixel_length buf) (WIDTH * HEIGHT)
    i 0 hi (by omega)
  have h1 := buildFrame_getD (irPixel buf) (irPixel_length buf) (WIDTH * HEIGHT)
    i 1 hi (by omega)
  have h2 := buildFrame_getD (irPixel buf) (irPixel_length buf) (WIDTH * HEIGHT)
    i 2 hi (by omega)
  have h3 := buildFrame_getD (irPixel buf) (irPixel_length buf) (WIDTH * HEIGHT)
    i 3 hi (by omega)
  exact ⟨h0, h1, h2, h3⟩

/-- Witness for `ir_conversion_replicates_sample` at `buf = [9, 128]`,
`i = 1`. -/
theorem ir_conversion_replicates_sample_witness :
    1 < WIDTH * HEIGHT
    ∧ ((convertIR [9, 128]).getD (4 * 1) 0 = ([9, 128] : List Nat).getD 1 0
      ∧ (convertIR [9, 128]).getD (4 * 1 + 1) 0 = ([9, 128] : List Nat).getD 1 0
      ∧ (convertIR [9, 128]).getD (4 * 1 + 2) 0 = ([9, 128] : List Nat).getD 1 0
      ∧ (convertIR [9, 128]).getD (4 * 1 + 3) 0 = 255) :=
  ⟨by decide, ir_conversion_replicates_sample [9, 128] 1 (by decide)⟩

/-- C5: for every color input triple read in source order red
(`buf[i*3]`), green (`buf[i*3+1]`), blue (`buf[i*3+2]`), the converted
pixel is `(b, g, r, 255)` in sink channel order. -/
theorem rgb_conversion_swaps_to_bgrx (buf : List Nat) (i : Nat)
    (hi : i < WIDTH * HEIGHT) :
    (convertRGB buf).getD (4 * i) 0 = buf.getD (i * 3 + 2) 0
    ∧ (convertRGB buf).getD (4 * i + 1) 0 = buf.getD (i * 3 + 1) 0
    ∧ (convertRGB buf).getD (4 * i + 2) 0 = buf.getD (i * 3) 0
    ∧ (convertRGB buf).getD (4 * i + 3) 0 = 255 := by
  have h0 := buildFrame_getD (rgbPixel buf) (rgbPixel_length buf) (WIDTH * HEIGHT)
    i 0 hi (by omega)
  have h1 := buildFrame_getD (rgbPixel buf) (rgbPixel_length buf) (WIDTH * HEIGHT)
    i 1 hi (by omega)
  have h2 := buildFrame_getD (rgbPixel buf) (rgbPixel_length buf) (WIDTH * HEIGHT)
    i 2 hi (by omega)
  have h3 := buildFrame_getD (rgbPixel buf) (rgbPixel_length buf) (WIDTH * HEIGHT)
    i 3 hi (by omega)
  exact ⟨h0, h1, h2, h3⟩

/-- Witness for `rgb_conversion_swaps_to_bgrx` at
`buf = [10, 20, 30]`, `i = 0`: the pixel is `(30, 20, 10, 255)`. -/
theorem rgb_conversion_swaps_to_bgrx_witness :
    0 < WIDTH * HEIGHT
    ∧ ((convertRGB [10, 20, 30]).getD (4 * 0) 0
        = ([10, 20, 30] : List Nat).getD (0 * 3 + 2) 0
      ∧ (convertRGB [10, 20, 30]).getD (4 * 0 + 1) 0
        = ([10, 20, 30] : List Nat).getD (0 * 3 + 1) 0
      ∧ (convertRGB [10, 20, 30]).getD (4 * 0 + 2) 0
        = ([10, 20, 30] : List Nat).getD (0 * 3) 0
      ∧ (convertRGB [10, 20, 30]).getD (4 * 0 + 3) 0 = 255) :=
  ⟨by decide, rgb_conversion_swaps_to_bgrx [10, 20, 30] 0 (by decide)⟩

/-- C1: for every depth sample `d ≤ 2047` at pixel index `i`, the
converted image's first three channels all equal `⌊d * 255 / 2047⌋` and
the fourth equals 255; moreover `d = 0` maps to 0 and `d = 2047` maps
to 255. -/
theorem depth_conversion_linear_map (buf : List Nat) (i : Nat)
    (hi : i < WIDTH * HEIGHT) (hd : buf.getD i 0 ≤ 2047) :
    (convertDepth buf).getD (4 * i) 0 = buf.getD i 0 * 255 / 2047
    ∧ (convertDepth buf).getD (4 * i + 1) 0 = buf.getD i 0 * 255 / 2047
    ∧ (convertDepth buf).getD (4 * i + 2) 0 = buf.getD i 0 * 255 / 2047
    ∧ (convertDepth buf).getD (4 * i + 3) 0 = 255
    ∧ depthGray 0 = 0 ∧ depthGray 2047 = 255 := by
  have hgray : depthGray (buf.getD i 0) = buf.getD i 0 * 255 / 2047 :=
    depthGray_le_2047 _ hd
  have h0 := buildFrame_getD (depthPixel buf) (depthPixel_length buf)
    (WIDTH * HEIGHT) i 0 hi (by omega)
  have h1 := buildFrame_getD (depthPixel buf) (depthPixel_length buf)
    (WIDTH * HEIGHT) i 1 hi (by omega)
  have h2 := buildFrame_getD (depthPixel buf) (depthPixel_length buf)
    (WIDTH * HEIGHT) i 2 hi (by omega)
  have h3 := buildFrame_getD (depthPixel buf) (depthPixel_length buf)
    (WIDTH * HEIGHT) i 3 hi (by omega)
  exact ⟨h0.trans hgray, h1.trans hgray, h2.trans hgray, h3,
    by decide, by decide⟩

/-- Witness for `depth_conversion_linear_map` at `buf = [1000]`, `i = 0`
(`1000 * 255 / 2047 = 124`). -/
theorem depth_conversion_linear_map_witness :
    (0 < WIDTH * HEIGHT ∧ ([1000] : List Nat).getD 0 0 ≤ 2047)
    ∧ ((convertDepth [1000]).getD (4 * 0) 0 = ([1000] : List Nat).getD 0 0 * 255 / 2047
      ∧ (convertDepth [1000]).getD (4 * 0 + 1) 0 = ([1000] : List Nat).getD 0 0 * 255 / 2047
      ∧ (convertDepth [1000]).getD (4 * 0 + 2) 0 = ([1000] : List Nat).getD 0 0 * 255 / 2047
      ∧ (convertDepth [1000]).getD (4 * 0 + 3) 0 = 255
      ∧ depthGray 0 = 0 ∧ depthGray 2047 = 255) :=
  ⟨⟨by decide, by decide⟩, depth_conversion_linear_map [1000] 0 (by decide) (by decide)⟩

/-- C10: the depth conversion does not clamp: for any 16-bit sample `d`,
the stored intensity is `⌊d * 255 / 2047⌋ mod 256` (the `uint8_t` cast
truncates), and in particular `d = 2056` yields intensity 0, not 255. -/
theorem depth_conversion_no_clamp (buf : List Nat) (i : Nat)
    (hi : i < WIDTH * HEIGHT) (hd : buf.getD i 0 < 65536) :
    (convertDepth buf).getD (4 * i) 0 = buf.getD i 0 * 255 / 2047 % 256
    ∧ (convertDepth buf).getD (4 * i + 1) 0 = buf.getD i 0 * 255 / 2047 % 256
    ∧ (convertDepth buf).getD (4 * i + 2) 0 = buf.getD i 0 * 255 / 2047 % 256
    ∧ (convertDepth buf).getD (4 * i + 3) 0 = 255
    ∧ depthGray 2056 = 0 := by
  have h0 := buildFrame_getD (depthPixel buf) (depthPixel_length buf)
    (WIDTH * HEIGHT) i 0 hi (by omega)
  have h1 := buildFrame_getD (depthPixel buf) (depthPixel_length buf)
    (WIDTH * HEIGHT) i 1 hi (by omega)
  have h2 := buildFrame_getD (depthPixel buf) (depthPixel_length buf)
    (WIDTH * HEIGHT) i 2 hi (by omega)
  have h3 := buildFrame_getD (depthPixel buf) (depthPixel_length buf)
    (WIDTH * HEIGHT) i 3 hi (by omega)
  exact ⟨h0, h1, h2, h3, by decide⟩

/-- Witness for `depth_conversion_no_clamp` at `buf = [2056]`, `i = 0`:
the stored intensity wraps to 0. -/
theorem depth_conversion_no_clamp_witness :
    (0 < WIDTH * HEIGHT ∧ ([2056] : List Nat).getD 0 0 < 65536)
    ∧ ((convertDepth [2056]).getD (4 * 0) 0 = ([2056] : List Nat).getD 0 0 * 255 / 2047 % 256
      ∧ (convertDepth [2056]).getD (4 * 0 + 1) 0 = ([2056] : List Nat).getD 0 0 * 255 / 2047 % 256
      ∧ (convertDepth [2056]).getD (4 * 0 + 2) 0 = ([2056] : List Nat).getD 0 0 * 255 / 2047 % 256
      ∧ (convertDepth [2056]).getD (4 * 0 + 3) 0 = 255
      ∧ depthGray 2056 = 0) :=
  ⟨⟨by decide, by decide⟩, depth_conversion_no_clamp [2056] 0 (by decide) (by decide)⟩

/-! ### Frame Buffer Exchange theorems -/

/-- C2: for a frame-exchange slot, a put followed by a take returns
exactly the bytes that were put (and clears the flag); a second take
without an intervening put returns nothing; a put while an untaken frame
exists overwrites the slot, so a take then returns only the latest
frame. -/
theorem frame_exchange_roundtrip (α : Type) (s : FrameSlot α) (f g : List α) :
    (takeIfNew (putFrame s f)).1 = some f
    ∧ (takeIfNew (putFrame s f)).2.newFrame = false
    ∧ (takeIfNew (takeIfNew s).2).1 = none
    ∧ (takeIfNew (putFrame (putFrame s f) g)).1 = some g := by
  refine ⟨rfl, rfl, ?_, rfl⟩
  by_cases h : s.newFrame <;> simp [takeIfNew, h]

/-! ### CLI theorems -/

/-- C7: with no arguments or with `--help` / `-h` the program prints
usage and exits 0; `--depth` alone passes validation and proceeds to
streaming setup with depth enabled, no video mode, and `videoChannels`
left at 0. -/
theorem cli_usage_and_depth_only :
    cliParse [] = .exitWith 0
    ∧ cliParse ["--help"] = .exitWith 0
    ∧ cliParse ["-h"] = .exitWith 0
    ∧ startupResult ["--depth"] true true true = .proceed ⟨false, false, true⟩ 0 := by
  refine ⟨rfl, ?_, ?_, ?_⟩ <;> decide

lemma scanArgs_help_in_scan (a : String) (ha : helpArg a = true) :
    ∀ (pre rest : List String) (ir rgb depth : Bool),
      (∀ b ∈ pre, recognizedArg b = true) →
      scanArgs (pre ++ a :: rest) ir rgb depth = .exitWith 0 := by
  intro pre
  induction pre with
  | nil =>
    intro rest ir rgb depth _
    have ha' : a = "--help" ∨ a = "-h" := by
      simpa [helpArg] using ha
    rcases ha' with h | h <;> subst h <;> rfl
  | cons b pre ih =>
    intro rest ir rgb depth hpre
    have hb : recognizedArg b = true := hpre b (List.mem_cons_self b pre)
    have hrest : ∀ x ∈ pre, recognizedArg x = true := fun x hx =>
      hpre x (List.mem_cons_of_mem b hx)
    have hb' : b = "--help" ∨ b = "-h" ∨ b = "--ir" ∨ b = "--rgb" ∨ b = "--depth" := by
      have := hb
      simp [recognizedArg] at this
      tauto
    rcases hb' with h | h | h | h | h <;> subst h <;>
      simp [scanArgs, ih rest _ _ _ hrest]

/-- C9: the argument scan is left-to-right with early exit on help: if
`--help` or `-h` appears with only recognized flags before it, the
program exits 0 regardless of the other flags, because the
mutual-exclusion and no-mode checks run only after the scan while help
returns from inside it (in particular `--ir --rgb --help` exits 0,
not 1). -/
theorem help_short_circuits_scan (pre rest : List String) (a : String)
    (ha : helpArg a = true)
    (hpre : ∀ b ∈ pre, recognizedArg b = true) :
    cliParse (pre ++ a :: rest) = .exitWith 0 := by
  have hne : (pre ++ a :: rest).isEmpty = false := by
    cases pre <;> rfl
  simp only [cliParse, hne, Bool.false_eq_true, if_false]
  exact scanArgs_help_in_scan a ha pre rest false false false hpre

/-- Witness for `help_short_circuits_scan` at `["--ir", "--rgb"] ++
["--help"]`. -/
theorem help_short_circuits_scan_witness :
    helpArg "--help" = true
    ∧ recognizedArg "--ir" = true
    ∧ recognizedArg "--rgb" = true
    ∧ cliParse (["--ir", "--rgb"] ++ "--help" :: []) = .exitWith 0 :=
  ⟨by decide, by decide, by decide,
    help_short_circuits_scan ["--ir", "--rgb"] [] "--help" (by decide) (by decide)⟩

/-- C6 counterexample: the claim that `--ir` together with `--rgb`, or
none of the three mode flags given, always exits with status 1 is false:
`--ir --rgb --help` exits 0 (help returns from inside the scan before the
mutual-exclusion check runs), and an empty argument list — none of the
mode flags given — also exits 0. -/
theorem fatal_startup_counterexample :
    startupResult ["--ir", "--rgb", "--help"] true true true = .exitCode 0
    ∧ startupResult ["--ir", "--rgb", "--help"] true true true ≠ .exitCode 1
    ∧ startupResult [] true true true = .exitCode 0 := by
  decide

lemma scanArgs_unknown_reached :
    ∀ (pre : List String) (a : String) (rest : List String) (ir rgb depth : Bool),
      recognizedArg a = false →
      (∀ b ∈ pre, recognizedArg b = true ∧ helpArg b = false) →
      scanArgs (pre ++ a :: rest) ir rgb depth = .exitWith 1 := by
  intro pre
  induction pre with
  | nil =>
    intro a rest ir rgb depth ha _
    have ha' : ¬a = "--help" ∧ ¬a = "-h" ∧ ¬a = "--ir" ∧ ¬a = "--rgb" ∧ ¬a = "--depth" := by
      have := ha
      simp [recognizedArg] at this
      tauto
    obtain ⟨h1, h2, h3, h4, h5⟩ := ha'
    simp [scanArgs, h1, h2, h3, h4, h5]
  | cons b pre ih =>
    intro a rest ir rgb depth ha hpre
    obtain ⟨hb, hbh⟩ := hpre b (List.mem_cons_self b pre)
    have hrest : ∀ x ∈ pre, recognizedArg x = true ∧ helpArg x = false := fun x hx =>
      hpre x (List.mem_cons_of_mem b hx)
    have hb' : b = "--ir" ∨ b = "--rgb" ∨ b = "--depth" := by
      have h1 := hb
      have h2 := hbh
      simp [recognizedArg] at h1
      simp [helpArg] at h2
      tauto
    rcases hb' with h | h | h <;> subst h <;>
      simp [scanArgs, ih a rest _ _ _ ha hrest]

lemma scanArgs_both_modes :
    ∀ (args : List String) (ir rgb depth : Bool),
      (∀ a ∈ args, helpArg a = false) →
      (ir = true ∨ "--ir" ∈ args) →
      (rgb = true ∨ "--rgb" ∈ args) →
      scanArgs args ir rgb depth = .exitWith 1 := by
  intro args
  induction args with
  | nil =>
    intro ir rgb depth _ hir hrgb
    have hir' : ir = true := by
      rcases hir with h | h
      · exact h
      · exact absurd h (List.not_mem_nil _)
    have hrgb' : rgb = true := by
      rcases hrgb with h | h
      · exact h
      · exact absurd h (List.not_mem_nil _)
    subst hir'
    subst hrgb'
    rfl
  | cons a rest ih =>
    intro ir rgb depth hnh hir hrgb
    have hah : helpArg a = false := hnh a (List.mem_cons_self a rest)
    have hrest : ∀ x ∈ rest, helpArg x = false := fun x hx =>
      hnh x (List.mem_cons_of_mem a hx)
    have hah' : ¬a = "--help" ∧ ¬a = "-h" := by
      have := hah
      simp [helpArg] at this
      tauto
    obtain ⟨hh1, hh2⟩ := hah'
    by_cases h3 : a = "--ir"
    · subst h3
      have hrgb' : rgb = true ∨ "--rgb" ∈ rest := by
        rcases hrgb with h | h
        · exact Or.inl h
        · rcases List.mem_cons.mp h with h | h
          · exact absurd h.symm (by decide)
          · exact Or.inr h
      simp [scanArgs, ih true rgb depth hrest (Or.inl rfl) hrgb']
    · by_cases h4 : a = "--rgb"
      · subst h4
        have hir' : ir = true ∨ "--ir" ∈ rest := by
          rcases hir with h | h
          · exact Or.inl h
          · rcases List.mem_cons.mp h with h | h
            · exact absurd h.symm (by decide)
            · exact Or.inr h
        simp [scanArgs, h3, ih ir true depth hrest hir' (Or.inl rfl)]
      · by_cases h5 : a = "--depth"
        · subst h5
          have hir' : ir = true ∨ "--ir" ∈ rest := by
            rcases hir with h | h
            · exact Or.inl h
            · rcases List.mem_cons.mp h with h | h
              · exact absurd h.symm (by decide)
              · exact Or.inr h
          have hrgb' : rgb = true ∨ "--rgb" ∈ rest := by
            rcases hrgb with h | h
            · exact Or.inl h
            · rcases List.mem_cons.mp h with h | h
              · exact absurd h.symm (by decide)
              · exact Or.inr h
          simp [scanArgs, h3, h4, ih ir rgb true hrest hir' hrgb']
        · simp [scanArgs, hh1, hh2, h3, h4, h5]

/-- C6 (amended): provided no `--help`/`-h` short-circuits the scan, each
fatal-at-startup condition exits with status 1, with no retry: a scan that
reaches an unrecognized flag (only recognized non-help flags before it);
`--ir` together with `--rgb` with no help flag anywhere; a nonempty
argument list containing neither a help flag nor any of the three mode
flags (its first argument is then unrecognized); and network-library
initialization failure after a successful parse.  (An empty argument list
exits 0 with usage, so the no-mode check itself is unreachable.) -/
theorem fatal_startup_amended :
    (∀ (pre : List String) (a : String) (rest : List String),
      recognizedArg a = false →
      (∀ b ∈ pre, recognizedArg b = true ∧ helpArg b = false) →
      cliParse (pre ++ a :: rest) = .exitWith 1)
    ∧ (∀ args : List String,
      (∀ a ∈ args, helpArg a = false) →
      "--ir" ∈ args → "--rgb" ∈ args →
      cliParse args = .exitWith 1)
    ∧ (∀ args : List String, args ≠ [] →
      (∀ a ∈ args, helpArg a = false ∧ modeArg a = false) →
      cliParse args = .exitWith 1)
    ∧ (∀ (args : List String) (ir rgb depth sv sd : Bool),
      cliParse args = .config ir rgb depth →
      startupResult args false sv sd = .exitCode 1) := by
  refine ⟨?_, ?_, ?_, ?_⟩
  · intro pre a rest ha hpre
    have hne : (pre ++ a :: rest).isEmpty = false := by
      cases pre <;> rfl
    simp only [cliParse, hne, Bool.false_eq_true, if_false]
    exact scanArgs_unknown_reached pre a rest false false false ha hpre
  · intro args hnh hir hrgb
    have hne : args.isEmpty = false := by
      cases args
      · exact absurd hir (List.not_mem_nil _)
      · rfl
    simp only [cliParse, hne, Bool.false_eq_true, if_false]
    exact scanArgs_both_modes args false false false hnh (Or.inr hir) (Or.inr hrgb)
  · intro args hne hall
    match args with
    | a :: rest =>
      obtain ⟨hh, hm⟩ := hall a (List.mem_cons_self a rest)
      have hh' : ¬a = "--help" ∧ ¬a = "-h" := by
        have := hh
        simp [helpArg] at this
        tauto
      have hm' : ¬a = "--ir" ∧ ¬a = "--rgb" ∧ ¬a = "--depth" := by
        have := hm
        simp [modeArg] at this
        tauto
      obtain ⟨h1, h2⟩ := hh'
      obtain ⟨h3, h4, h5⟩ := hm'
      simp [cliParse, scanArgs, h1, h2, h3, h4, h5]
  · intro args ir rgb depth sv sd hparse
    simp [startupResult, hparse]

/-- Witness for `fatal_startup_amended`: each amended condition at a
concrete input. -/
theorem fatal_startup_amended_witness :
    (recognizedArg "--bogus" = false
      ∧ cliParse (["--depth"] ++ "--bogus" :: []) = .exitWith 1)
    ∧ cliParse ["--ir", "--rgb"] = .exitWith 1
    ∧ cliParse ["--bogus"] = .exitWith 1
    ∧ (cliParse ["--depth"] = .config false false true
      ∧ startupResult ["--depth"] false true true = .exitCode 1) :=
  ⟨⟨by decide,
      fatal_startup_amended.1 ["--depth"] "--bogus" [] (by decide) (by decide)⟩,
    fatal_startup_amended.2.1 ["--ir", "--rgb"] (by decide) (by decide) (by decide),
    fatal_startup_amended.2.2.1 ["--bogus"] (by decide) (by decide),
    ⟨by decide,
      fatal_startup_amended.2.2.2 ["--depth"] false false true true true (by decide)⟩⟩

/-! ### Connection-supervisor theorems -/

lemma connectAttempt_no_exit (cfg : StreamConfig) (e : AttemptEnv) (c : Nat) :
    connectAttempt cfg e ≠ .exits c := by
  cases h1 : e.ctxOk <;> cases h2 : e.openOk <;>
    cases h3 : configure cfg e <;> cases h4 : e.eventsFail <;>
      simp [connectAttempt, h1, h2, h3, h4]

lemma connectAttempt_delay_five (cfg : StreamConfig) (e : AttemptEnv) (d : Nat)
    (h : connectAttempt cfg e = .disconnectedRetry d) : d = 5 := by
  cases h1 : e.ctxOk <;> cases h2 : e.openOk <;>
    cases h3 : configure cfg e <;> cases h4 : e.eventsFail <;>
      simp [connectAttempt, h1, h2, h3, h4] at h <;> omega

lemma superviseExits_none (cfg : StreamConfig) :
    ∀ (n : Nat) (envs : Nat → AttemptEnv), superviseExits cfg envs n = none := by
  intro n
  induction n with
  | zero => intro envs; rfl
  | succ n ih =>
    intro envs
    cases hc : connectAttempt cfg (envs 0) with
    | exits c => exact absurd hc (connectAttempt_no_exit cfg (envs 0) c)
    | disconnectedRetry d => simp [superviseExits, hc, ih]
    | streamingForever => simp [superviseExits, hc]

/-- C3: once streaming setup begins, the supervisor never terminates the
process: no attempt outcome is a process exit, every attempt that ends
back at `Disconnected` retries after the fixed 5-second delay, and for
any environment stream and any number of attempts the reconnect loop is
still running — there is no maximum retry count. -/
theorem supervisor_never_terminates (cfg : StreamConfig) (e : AttemptEnv)
    (envs : Nat → AttemptEnv) (n c d : Nat)
    (h : connectAttempt cfg e = .disconnectedRetry d) :
    connectAttempt cfg e ≠ .exits c
    ∧ d = 5
    ∧ superviseExits cfg envs n = none :=
  ⟨connectAttempt_no_exit cfg e c, connectAttempt_delay_five cfg e d h,
    superviseExits_none cfg n envs⟩

/-- Witness for `supervisor_never_terminates`: a depth-only configuration
whose context initialization fails retries after 5 seconds and the loop
is still running after 3 attempts. -/
theorem supervisor_never_terminates_witness :
    connectAttempt ⟨false, false, true⟩
        ⟨false, true, true, true, true, true, false⟩ = .disconnectedRetry 5
    ∧ (connectAttempt ⟨false, false, true⟩
          ⟨false, true, true, true, true, true, false⟩ ≠ .exits 0
      ∧ 5 = 5
      ∧ superviseExits ⟨false, false, true⟩
          (fun _ => ⟨false, true, true, true, true, true, false⟩) 3 = none) :=
  ⟨by decide,
    supervisor_never_terminates ⟨false, false, true⟩
      ⟨false, true, true, true, true, true, false⟩
      (fun _ => ⟨false, true, true, true, true, true, false⟩) 3 0 5 (by decide)⟩

/-- C8: any failure while configuring tears down exactly what this
attempt already started: the failure path stops the video stream iff a
video mode is enabled and the video stream had been started, it always
closes the device and shuts down the context, and (when context
initialization and device open succeeded, which is how configuring is
reached) the attempt ends back at `Disconnected` with the 5-second
retry delay. -/
theorem configure_failure_teardown (cfg : StreamConfig) (e : AttemptEnv)
    (vs sv cd sc : Bool)
    (h : configure cfg e = .fail vs sv cd sc)
    (hctx : e.ctxOk = true) (hopen : e.openOk = true) :
    sv = (videoEnabled cfg && vs)
    ∧ cd = true
    ∧ sc = true
    ∧ connectAttempt cfg e = .disconnectedRetry 5 := by
  rcases cfg with ⟨ir, rgb, depth⟩
  rcases e with ⟨co, oo, vm, vst, dm, dst, ef⟩
  simp only at hctx hopen
  subst hctx
  subst hopen
  cases ir <;> cases rgb <;> cases depth <;> cases vm <;> cases vst <;>
    cases dm <;> cases dst <;>
      simp_all [configure, configureDepth, videoEnabled, connectAttempt]

/-- Witness for `configure_failure_teardown`: IR plus depth enabled,
depth start fails after video was started — the teardown stops video,
closes the device, shuts the context, and retries after 5 seconds. -/
theorem configure_failure_teardown_witness :
    configure ⟨true, false, true⟩ ⟨true, true, true, true, true, false, false⟩
        = .fail true true true true
    ∧ (true = (videoEnabled ⟨true, false, true⟩ && true)
      ∧ true = true
      ∧ true = true
      ∧ connectAttempt ⟨true, false, true⟩
          ⟨true, true, true, true, true, false, false⟩ = .disconnectedRetry 5) :=
  ⟨by decide,
    configure_failure_teardown ⟨true, false, true⟩
      ⟨true, true, true, true, true, false, false⟩
      true true true true (by decide) (by decide) (by decide)⟩

end KinectNDI
